import Mathlib

/-!
# Verification of the UIDAI state-name cleaning utility

A shallow embedding of `data_preprocessing_scripts/clean_state_names.py`:
the normalization routine `clean_state_name`, the alias table
`STATE_NAME_MAP`, the per-column batch cleaner `clean_state_column`, the
file-level driver `process_csv_file`, and the full-batch main loop.

Strings are modelled with Lean `String`/`List Char`; Python's `str.strip`,
`str.lower`, `str.split()` (whitespace runs) and `str.replace` are embedded
as executable functions over character lists, restricted to the ASCII
whitespace set the data uses.  A missing/NaN cell (`pd.isna`) is modelled as
`Option.none`.  CSV files are modelled at the record level, per the source's
contract of a tabular source/sink: a file's contents is its ordered list of
rows, each row an association list from column names to optional cell
values.
-/

set_option autoImplicit false

namespace CleanStates

/-- ASCII whitespace, the set Python's `str.strip`/`str.split()` act on for
the data in this repository: space, tab, newline, carriage return, vertical
tab, form feed. -/
def isSpaceChar (c : Char) : Bool :=
  c = ' ' || c = '\t' || c = '\n' || c = '\r' || c.toNat = 11 || c.toNat = 12

/-- Python `str.strip()` on a character list: drop leading and trailing
whitespace. -/
def stripChars (cs : List Char) : List Char :=
  ((cs.dropWhile (fun c => isSpaceChar c)).reverse.dropWhile
    (fun c => isSpaceChar c)).reverse

/-- ASCII `str.lower()` on one character. -/
def lowerChar (c : Char) : Char :=
  if 'A' ≤ c ∧ c ≤ 'Z' then Char.ofNat (c.toNat + 32) else c

/-- Python `str.split()` (no argument): split on runs of whitespace,
discarding empty fields.  `acc` holds the current word reversed. -/
def splitWsAux : List Char → List Char → List (List Char)
  | [], acc => if acc.isEmpty then [] else [acc.reverse]
  | c :: cs, acc =>
    if isSpaceChar c then
      if acc.isEmpty then splitWsAux cs [] else acc.reverse :: splitWsAux cs []
    else
      splitWsAux cs (c :: acc)

/-- `' '.join(words)` on character-list words. -/
def joinSpace : List (List Char) → List Char
  | [] => []
  | [w] => w
  | w :: ws => w ++ ' ' :: joinSpace ws

/-- Python `s.replace('&', 'and')`: every ampersand character becomes the
three letters `and`, with no surrounding spaces added. -/
def replaceAmp : List Char → List Char
  | [] => []
  | c :: cs =>
    if c = '&' then 'a' :: 'n' :: 'd' :: replaceAmp cs
    else c :: replaceAmp cs

/-- The key-normalization steps of `clean_state_name`, in source order:
`str(v).strip().lower()`, then `' '.join(s.split())`, then
`s.replace('&', 'and')`. -/
def normalizeStateKey (s : String) : String :=
  let cs := (stripChars s.data).map lowerChar
  let cs := joinSpace (splitWsAux cs [])
  String.mk (replaceAmp cs)

/-- `STATE_NAME_MAP` from the source, in literal order: the 36 canonical
names mapping to themselves, followed by variations, typos and legacy
names.  Python-dict lookup is embedded as `List.lookup`; the literal has no
duplicate keys, so first-match lookup agrees with the dict. -/
def STATE_NAME_MAP : List (String × String) :=
  [ ("andaman and nicobar islands", "andaman and nicobar islands"),
    ("andhra pradesh", "andhra pradesh"),
    ("arunachal pradesh", "arunachal pradesh"),
    ("assam", "assam"),
    ("bihar", "bihar"),
    ("chandigarh", "chandigarh"),
    ("chhattisgarh", "chhattisgarh"),
    ("dadra and nagar haveli and daman and diu",
      "dadra and nagar haveli and daman and diu"),
    ("delhi", "delhi"),
    ("goa", "goa"),
    ("gujarat", "gujarat"),
    ("haryana", "haryana"),
    ("himachal pradesh", "himachal pradesh"),
    ("jammu and kashmir", "jammu and kashmir"),
    ("jharkhand", "jharkhand"),
    ("karnataka", "karnataka"),
    ("kerala", "kerala"),
    ("ladakh", "ladakh"),
    ("lakshadweep", "lakshadweep"),
    ("madhya pradesh", "madhya pradesh"),
    ("maharashtra", "maharashtra"),
    ("manipur", "manipur"),
    ("meghalaya", "meghalaya"),
    ("mizoram", "mizoram"),
    ("nagaland", "nagaland"),
    ("odisha", "odisha"),
    ("puducherry", "puducherry"),
    ("punjab", "punjab"),
    ("rajasthan", "rajasthan"),
    ("sikkim", "sikkim"),
    ("tamil nadu", "tamil nadu"),
    ("telangana", "telangana"),
    ("tripura", "tripura"),
    ("uttar pradesh", "uttar pradesh"),
    ("uttarakhand", "uttarakhand"),
    ("west bengal", "west bengal"),
    ("andaman & nicobar islands", "andaman and nicobar islands"),
    ("andaman & nicobar", "andaman and nicobar islands"),
    ("andaman and nicobar", "andaman and nicobar islands"),
    ("a & n islands", "andaman and nicobar islands"),
    ("a&n islands", "andaman and nicobar islands"),
    ("nct of delhi", "delhi"),
    ("new delhi", "delhi"),
    ("national capital territory of delhi", "delhi"),
    ("chattisgarh", "chhattisgarh"),
    ("chhatisgarh", "chhattisgarh"),
    ("dadra and nagar haveli", "dadra and nagar haveli and daman and diu"),
    ("dadra & nagar haveli", "dadra and nagar haveli and daman and diu"),
    ("dnh", "dadra and nagar haveli and daman and diu"),
    ("daman and diu", "dadra and nagar haveli and daman and diu"),
    ("daman & diu", "dadra and nagar haveli and daman and diu"),
    ("diu", "dadra and nagar haveli and daman and diu"),
    ("daman", "dadra and nagar haveli and daman and diu"),
    ("jammu & kashmir", "jammu and kashmir"),
    ("j&k", "jammu and kashmir"),
    ("j & k", "jammu and kashmir"),
    ("orissa", "odisha"),
    ("pondicherry", "puducherry"),
    ("pondy", "puducherry"),
    ("tamilnadu", "tamil nadu"),
    ("tn", "tamil nadu"),
    ("uttarpradesh", "uttar pradesh"),
    ("up", "uttar pradesh"),
    ("u.p.", "uttar pradesh"),
    ("uttaranchal", "uttarakhand"),
    ("westbengal", "west bengal"),
    ("w.b.", "west bengal"),
    ("wb", "west bengal"),
    ("madhyapradesh", "madhya pradesh"),
    ("mp", "madhya pradesh"),
    ("m.p.", "madhya pradesh"),
    ("himachalpradesh", "himachal pradesh"),
    ("hp", "himachal pradesh"),
    ("h.p.", "himachal pradesh"),
    ("arunachalpradesh", "arunachal pradesh"),
    ("andhrapradesh", "andhra pradesh"),
    ("ap", "andhra pradesh"),
    ("laccadive", "lakshadweep"),
    ("lakshadweep islands", "lakshadweep") ]

/-- The sentinel the source returns for unrecognized or missing values; the
spec's `UNRESOLVED` marker is this literal. -/
def INVALID_STATE : String := "INVALID_STATE"

/-- `clean_state_name`: `pd.isna` short-circuits to the sentinel, otherwise
normalize the key and look it up, returning the sentinel on a miss.
A `none` argument models a missing/NaN cell. -/
def cleanStateName (stateValue : Option String) : String :=
  match stateValue with
  | none => INVALID_STATE
  | some s =>
    match STATE_NAME_MAP.lookup (normalizeStateKey s) with
    | some canonical => canonical
    | none => INVALID_STATE

example : cleanStateName (some "U.P.") = "uttar pradesh" := by decide
example : cleanStateName (some "TN") = "tamil nadu" := by decide
example : cleanStateName (some "Mars") = "INVALID_STATE" := by decide
example : cleanStateName (some "J&K") = "INVALID_STATE" := by decide
example : normalizeStateKey "  J&K " = "jandk" := by decide

/-- A row of a tabular dataset: an association list from column names to
cell values, `none` modelling a missing/NaN cell. -/
abbrev Row : Type := List (String × Option String)

/-- The value of a column in a row; a column absent from the row reads as a
missing cell. -/
def cellValue (row : Row) (colName : String) : Option String :=
  (row.lookup colName).join

/-- The designated column of one row after cleaning, other columns kept as
they are: the per-row effect of
`df[column_name] = df[column_name].apply(clean_state_name)`. -/
def updCell (colName : String) (kv : String × Option String) :
    String × Option String :=
  if kv.1 = colName then (kv.1, some (cleanStateName kv.2)) else kv

/-- One row of the cleaned DataFrame. -/
def updateColumn (colName : String) (row : Row) : Row :=
  row.map (updCell colName)

/-- The designated column of a dataset, in row order. -/
def columnValues (rows : List Row) (colName : String) : List (Option String) :=
  rows.map (fun r => cellValue r colName)

/-- The aggregate facts `clean_state_column` computes and reports: total
rows, distinct non-missing values before and after cleaning
(`value_counts`, which drops NaN), the count of `INVALID_STATE` rows, and
the sample list printed under `Invalid state examples` — the first ten
entries of the already-cleaned column that equal the sentinel. -/
structure CleaningResult where
  totalRows : Nat
  originalUnique : Nat
  cleanedUnique : Nat
  invalidCount : Nat
  invalidSamples : List String
  deriving DecidableEq, Repr

/-- `clean_state_column`: apply `clean_state_name` to every cell of the
designated column, in row order, and collect the report data.  The sample
list reads the column after it has been overwritten with cleaned values
(`df[df[column_name] == 'INVALID_STATE'][column_name].head(10)`). -/
def cleanStateColumn (rows : List Row) (colName : String) :
    List Row × CleaningResult :=
  let originalCol := columnValues rows colName
  let cleaned := rows.map (updateColumn colName)
  let cleanedCol := columnValues cleaned colName
  let invalidVals := cleanedCol.filter (fun v => v == some INVALID_STATE)
  (cleaned,
    { totalRows := rows.length
      originalUnique := (originalCol.filterMap id).dedup.length
      cleanedUnique := (cleanedCol.filterMap id).dedup.length
      invalidCount := invalidVals.length
      invalidSamples := (invalidVals.take 10).filterMap id })

/-- Is `pat` a prefix of the list?  Helper for Python `str.replace`. -/
def chunkMatches (pat : List Char) (cs : List Char) : Bool :=
  cs.take pat.length == pat

/-- Replace every occurrence of the nonempty pattern `p :: ps` by `repl`,
scanning left to right, as Python `str.replace` does.  Structural recursion
on a fuel argument; every step consumes at least one character, so fuel
equal to the list length computes the full replacement. -/
def replaceSubAux (p : Char) (ps : List Char) (repl : List Char) :
    Nat → List Char → List Char
  | 0, cs => cs
  | _ + 1, [] => []
  | fuel + 1, c :: cs =>
    if c = p ∧ chunkMatches ps cs then
      repl ++ replaceSubAux p ps repl fuel (cs.drop ps.length)
    else
      c :: replaceSubAux p ps repl fuel cs

/-- Python `s.replace(pat, repl)` for a nonempty pattern (the source only
uses the pattern `".csv"`). -/
def pyReplace (s pat repl : String) : String :=
  match pat.data with
  | [] => s
  | p :: ps => String.mk (replaceSubAux p ps repl.data s.data.length s.data)

example : pyReplace "data/enrollment.csv" ".csv" "_BACKUP.csv"
    = "data/enrollment_BACKUP.csv" := by decide

/-- A file system at the record level: a path either holds a dataset (its
ordered rows) or does not exist. -/
abbrev FileSys : Type := String → Option (List Row)

/-- One file write: which path is written and with which rows.  Write
events are listed in the temporal order the source performs them. -/
structure WriteEvent where
  path : String
  contents : List Row
  deriving DecidableEq

/-- `process_csv_file`: read the input (a missing path raises
`FileNotFoundError`), clean the state column, and then — when no output
path is given — re-read the still-unmodified input, write it to the
`_BACKUP` path, and only afterwards overwrite the input with the cleaned
rows; with an explicit output path, write only there and make no backup.
The result is the ordered list of writes performed. -/
def processCsvFile (fs : FileSys) (inputFile : String)
    (outputFile : Option String) (stateColumn : String) :
    Except String (List WriteEvent) :=
  match fs inputFile with
  | none => .error "FileNotFoundError"
  | some df =>
    let cleaned := (cleanStateColumn df stateColumn).1
    match outputFile with
    | none =>
      let backupFile := pyReplace inputFile ".csv" "_BACKUP.csv"
      match fs inputFile with
      | none => .error "FileNotFoundError"
      | some dfOriginal =>
        .ok [⟨backupFile, dfOriginal⟩, ⟨inputFile, cleaned⟩]
    | some out => .ok [⟨out, cleaned⟩]

/-- Apply a list of write events to the file system, in order. -/
def applyWrites (fs : FileSys) (ws : List WriteEvent) : FileSys :=
  ws.foldl (fun f w => fun p => if p = w.path then some w.contents else f p) fs

/-- The fixed dataset list of full-batch mode (`files_to_process`). -/
def filesToProcess : List (String × String) :=
  [ ("data/enrollment.csv", "data/enrollment_cleaned_states.csv"),
    ("data/demographic.csv", "data/demographic_cleaned_states.csv"),
    ("data/biometric.csv", "data/biometric_cleaned_states.csv") ]

/-- One iteration of the `__main__` batch loop: process the dataset inside
`try/except`, recording either success or the caught error, and apply any
writes a successful run performed. -/
def batchStep (acc : List (String × Except String Unit) × FileSys)
    (file : String × String) :
    List (String × Except String Unit) × FileSys :=
  match processCsvFile acc.2 file.1 (some file.2) "state" with
  | .ok ws => (acc.1 ++ [(file.1, .ok ())], applyWrites acc.2 ws)
  | .error e => (acc.1 ++ [(file.1, .error e)], acc.2)

/-- The `__main__` batch loop with no CLI arguments: each dataset is
processed inside `try/except`, so a failure is recorded for that dataset
and the loop moves on; successful writes take effect on the file system
before the next dataset runs.  Returns the per-dataset outcomes in order,
alongside the final file system. -/
def runBatch (fs : FileSys) :
    List (String × Except String Unit) × FileSys :=
  filesToProcess.foldl batchStep ([], fs)

/-- The three-row example dataset from the spec's end-to-end example. -/
def exampleRows : List Row :=
  [ [("state", some "U.P.")],
    [("state", some "TN")],
    [("state", some "Mars")] ]

/-- A file system holding the example dataset at the enrollment path. -/
def exampleFs : FileSys :=
  fun p => if p = "data/enrollment.csv" then some exampleRows else none

/-- A file system in which the first batch dataset (enrollment) is missing
while the other two exist. -/
def partialFs : FileSys :=
  fun p =>
    if p = "data/demographic.csv" then some exampleRows
    else if p = "data/biometric.csv" then some exampleRows
    else none

/-- The 36 distinct canonical names: the deduplicated range of the alias
table. -/
def canonicalNames : List String := (STATE_NAME_MAP.map Prod.snd).dedup

section Lemmas

/-- A successful association-list lookup returns one of the stored
values. -/
lemma mem_values_of_lookup {k v : String} :
    ∀ {l : List (String × String)}, l.lookup k = some v →
      v ∈ l.map Prod.snd := by
  intro l
  induction l with
  | nil => intro h; simp [List.lookup] at h
  | cons p t ih =>
    obtain ⟨a, b⟩ := p
    intro h
    rw [List.lookup] at h
    split at h
    · injection h with h
      simp [h]
    · simpa using Or.inr (ih h)

/-- Every output of `clean_state_name` is a value of the alias table or
the sentinel. -/
lemma cleanStateName_result_cases (v : Option String) :
    cleanStateName v ∈ STATE_NAME_MAP.map Prod.snd ∨
      cleanStateName v = INVALID_STATE := by
  cases v with
  | none => exact Or.inr rfl
  | some s =>
    cases h : STATE_NAME_MAP.lookup (normalizeStateKey s) with
    | none =>
      right
      simp [cleanStateName, h]
    | some c =>
      left
      have hc : cleanStateName (some s) = c := by simp [cleanStateName, h]
      rw [hc]
      exact mem_values_of_lookup h

/-- Every value of the alias table is a fixed point of
`clean_state_name`. -/
lemma cleanStateName_fixed_on_values :
    ∀ c ∈ STATE_NAME_MAP.map Prod.snd, cleanStateName (some c) = c := by
  decide

/-- The sentinel is a fixed point of `clean_state_name`: it normalizes to
`invalid_state`, which is not a table key. -/
lemma cleanStateName_fixed_invalid :
    cleanStateName (some INVALID_STATE) = INVALID_STATE := by
  decide

/-- `clean_state_name` applied to its own output is the identity. -/
lemma cleanStateName_idem (v : Option String) :
    cleanStateName (some (cleanStateName v)) = cleanStateName v := by
  rcases cleanStateName_result_cases v with h | h
  · exact cleanStateName_fixed_on_values _ h
  · rw [h]
    exact cleanStateName_fixed_invalid

/-- Cleaning one cell twice equals cleaning it once. -/
lemma updCell_idem (colName : String) (kv : String × Option String) :
    updCell colName (updCell colName kv) = updCell colName kv := by
  obtain ⟨k, v⟩ := kv
  by_cases h : k = colName <;>
    simp [updCell, h, cleanStateName_idem]

/-- Cleaning one row twice equals cleaning it once. -/
lemma updateColumn_idem (colName : String) (row : Row) :
    updateColumn colName (updateColumn colName row) = updateColumn colName row := by
  unfold updateColumn
  rw [List.map_map]
  exact List.map_congr_left fun kv _ => updCell_idem colName kv

/-- The batch loop visits every dataset of its list, in order, whatever
the per-dataset outcomes are. -/
lemma batch_foldl_names :
    ∀ (files : List (String × String))
      (acc : List (String × Except String Unit)) (fs : FileSys),
      ((files.foldl batchStep (acc, fs)).1.map Prod.fst) =
        acc.map Prod.fst ++ files.map Prod.fst := by
  intro files
  induction files with
  | nil => intro acc fs; simp
  | cons file rest ih =>
    intro acc fs
    simp only [List.foldl, batchStep]
    cases processCsvFile fs file.1 (some file.2) "state" with
    | ok ws => rw [ih]; simp
    | error e => rw [ih]; simp

end Lemmas

/-- C1: the claim fails on the code.  The table stores the aliases `j&k`
and `j & k` for `jammu and kashmir`, yet `clean_state_name` rewrites `&`
to `and` with no surrounding spaces before the lookup, so `"J&K"`
normalizes to `"jandk"` — not a key — and resolves to the sentinel, the
`&`-bearing keys being unreachable; likewise
`normalize("  J&K ") ≠ normalize("j and k")`. -/
theorem ampersand_aliases_unreachable :
    ("j&k", "jammu and kashmir") ∈ STATE_NAME_MAP ∧
    ("j & k", "jammu and kashmir") ∈ STATE_NAME_MAP ∧
    normalizeStateKey "J&K" = "jandk" ∧
    STATE_NAME_MAP.lookup "jandk" = none ∧
    cleanStateName (some "J&K") = INVALID_STATE ∧
    cleanStateName (some "j&k") = INVALID_STATE ∧
    cleanStateName (some "j & k") = INVALID_STATE ∧
    normalizeStateKey "  J&K " ≠ normalizeStateKey "j and k" := by
  decide

/-- C2: evaluating the batch cleaner on the spec's end-to-end example.
The cleaned rows and the unresolved count match the claim, but the
diagnostic sample list is `["INVALID_STATE"]`, not `["Mars"]`: the code
samples the column after overwriting it with cleaned values, so the raw
value is gone. -/
theorem end_to_end_example_eval :
    cleanStateColumn exampleRows "state" =
      ([ [("state", some "uttar pradesh")],
         [("state", some "tamil nadu")],
         [("state", some INVALID_STATE)] ],
       { totalRows := 3
         originalUnique := 3
         cleanedUnique := 3
         invalidCount := 1
         invalidSamples := [INVALID_STATE] }) := by
  decide

/-- C3: in overwrite mode (no explicit output path) `process_csv_file`
writes the backup first, with exactly the original input file's contents,
and only then overwrites the input with the cleaned rows; with an explicit
output path it performs that single write and no backup.  File contents
are modelled at the record level, the spec's contract for the tabular
source/sink. -/
theorem backup_fidelity (fs : FileSys) (inputFile stateColumn : String)
    (df : List Row) (h : fs inputFile = some df) :
    processCsvFile fs inputFile none stateColumn =
      .ok [⟨pyReplace inputFile ".csv" "_BACKUP.csv", df⟩,
           ⟨inputFile, (cleanStateColumn df stateColumn).1⟩] ∧
    ∀ out : String,
      processCsvFile fs inputFile (some out) stateColumn =
        .ok [⟨out, (cleanStateColumn df stateColumn).1⟩] := by
  constructor
  · simp [processCsvFile, h]
  · intro out
    simp [processCsvFile, h]

/-- Witness for C3 at a concrete file system holding the example dataset
at the enrollment path. -/
theorem backup_fidelity_witness :
    exampleFs "data/enrollment.csv" = some exampleRows ∧
    processCsvFile exampleFs "data/enrollment.csv" none "state" =
      .ok [⟨pyReplace "data/enrollment.csv" ".csv" "_BACKUP.csv", exampleRows⟩,
           ⟨"data/enrollment.csv", (cleanStateColumn exampleRows "state").1⟩] :=
  ⟨rfl,
    (backup_fidelity exampleFs "data/enrollment.csv" "state" exampleRows rfl).1⟩

/-- C4: every value of the alias table is also a key mapping to itself,
and consequently every canonical name is resolved to itself by the full
normalize-then-lookup pipeline. -/
theorem canonical_self_mapping :
    ∀ p ∈ STATE_NAME_MAP,
      STATE_NAME_MAP.lookup p.2 = some p.2 ∧
        cleanStateName (some p.2) = p.2 := by
  decide

/-- Witness for C4 at the alias entry mapping `orissa` to `odisha`. -/
theorem canonical_self_mapping_witness :
    ("orissa", "odisha") ∈ STATE_NAME_MAP ∧
    STATE_NAME_MAP.lookup "odisha" = some "odisha" ∧
    cleanStateName (some "odisha") = "odisha" :=
  ⟨by decide, canonical_self_mapping ("orissa", "odisha") (by decide)⟩

/-- C5: cleaning a dataset twice equals cleaning it once, and the
per-value cleaning function applied to its own output is the identity
(canonical names and the sentinel are both fixed points). -/
theorem cleaning_idempotent (rows : List Row) (colName : String) :
    (cleanStateColumn (cleanStateColumn rows colName).1 colName).1 =
      (cleanStateColumn rows colName).1 ∧
    ∀ v : Option String,
      cleanStateName (some (cleanStateName v)) = cleanStateName v := by
  refine ⟨?_, cleanStateName_idem⟩
  show ((rows.map (updateColumn colName)).map (updateColumn colName)) =
    rows.map (updateColumn colName)
  rw [List.map_map]
  exact List.map_congr_left fun row _ => updateColumn_idem colName row

/-- C6: any value whose normalized key misses the alias table cleans to
the sentinel; the function is total, so a miss never halts processing. -/
theorem unresolved_sentinel_on_miss (s : String)
    (h : STATE_NAME_MAP.lookup (normalizeStateKey s) = none) :
    cleanStateName (some s) = INVALID_STATE := by
  simp [cleanStateName, h]

/-- Witness for C6 at the unrecognized value `Atlantis`. -/
theorem unresolved_sentinel_on_miss_witness :
    STATE_NAME_MAP.lookup (normalizeStateKey "Atlantis") = none ∧
    cleanStateName (some "Atlantis") = INVALID_STATE :=
  ⟨by decide, unresolved_sentinel_on_miss "Atlantis" (by decide)⟩

/-- C7: `clean_state_name` is a total Lean function — it returns a string
on every input — and a missing/NaN input short-circuits to the sentinel,
so a null input value cleans to `INVALID_STATE`. -/
theorem missing_value_cleans_to_sentinel :
    cleanStateName none = INVALID_STATE :=
  rfl

/-- C8: the cleaned dataset has exactly as many rows as the input, and
row `i` of the output is row `i` of the input with only the designated
column transformed — row order is preserved. -/
theorem cleaning_preserves_row_count_and_order (rows : List Row)
    (colName : String) :
    (cleanStateColumn rows colName).1.length = rows.length ∧
    ∀ i : Nat,
      (cleanStateColumn rows colName).1[i]? =
        (rows[i]?).map (updateColumn colName) := by
  refine ⟨?_, fun i => ?_⟩
  · show (rows.map (updateColumn colName)).length = rows.length
    exact List.length_map rows (updateColumn colName)
  · show (rows.map (updateColumn colName))[i]? =
      (rows[i]?).map (updateColumn colName)
    exact List.getElem?_map (updateColumn colName) rows i

/-- C9: full-batch mode records an outcome for every one of the three
datasets whatever the file system contains — an error on one dataset is
caught and the loop continues; concretely, with the enrollment file
missing, the batch reports its `FileNotFoundError` and still processes
the demographic and biometric datasets successfully. -/
theorem batch_never_aborts_early :
    (∀ fs : FileSys,
      (runBatch fs).1.map Prod.fst = filesToProcess.map Prod.fst) ∧
    (runBatch partialFs).1 =
      [ ("data/enrollment.csv", .error "FileNotFoundError"),
        ("data/demographic.csv", .ok ()),
        ("data/biometric.csv", .ok ()) ] := by
  constructor
  · intro fs
    have h := batch_foldl_names filesToProcess [] fs
    simpa [runBatch] using h
  · rfl

/-- C10: every output of `clean_state_name` is one of the 36 distinct
canonical names in the alias table's range or the sentinel, and the
sentinel is not a canonical name, so the two are always
distinguishable. -/
theorem closed_output_domain :
    (∀ v : Option String,
      cleanStateName v ∈ canonicalNames ∨ cleanStateName v = INVALID_STATE) ∧
    canonicalNames.length = 36 ∧
    INVALID_STATE ∉ canonicalNames := by
  refine ⟨fun v => ?_, by decide, by decide⟩
  rcases cleanStateName_result_cases v with h | h
  · exact Or.inl (List.mem_dedup.mpr h)
  · exact Or.inr h

end CleanStates
